import Mathlib

/-!
Shallow embedding of `examples/oldconfig.py`, the interactive oldconfig
reconfiguration walk of the Kconfiglib repository.

The script's own logic (the tree walk `do_oldconfig`, the per-node prompter
`do_oldconfig_for_node` with its symbol input loop and choice selection loop,
and the display helpers `name_and_loc_str` / `default_value_str`) is embedded
faithfully from the source.  The kconfiglib library itself (the `Symbol`,
`Choice` and `MenuNode` classes, `STR_TO_TRI`, `Symbol.set_value`,
`Kconfig.load_config`) is not part of the source tree; where its behaviour is
needed it is modelled from the specification, and each such definition says so
in its doc comment.

Interaction is embedded by making each loop consume an explicit list of input
lines (one line per `input()` call) and produce a log of display events and a
log of `set_value` calls, together with the unconsumed input and a completion
flag.  Running out of input models `input()` hitting end-of-file, and Python
exceptions raised by unguarded attribute/index accesses are modelled by an
explicit error field.
-/

/-- Kconfig symbol types used by the script (`BOOL`, `TRISTATE`, `HEX` are
imported by the source; `STRING` and `INT` are the remaining prompt types). -/
inductive SymType where
  | BOOL
  | TRISTATE
  | STRING
  | INT
  | HEX
deriving DecidableEq

/-- A value passed to `set_value`: a tri-state level (int in Python) or a
string. -/
inductive Val where
  | tri (t : Nat)
  | str (s : String)
deriving DecidableEq

/-- One defining menu node of a symbol, as used through `sym.nodes`:
`filename`, `linenr` and the optional prompt (`None` or `(text, cond)` in
kconfiglib; the condition is never read by the script, so only the text is
kept). -/
structure SymNode where
  prompt : Option String
  filename : String
  linenr : Nat
deriving DecidableEq

/-- The owning choice of a symbol, as seen through `sym.choice`.  The script
only reads `sym.choice.tri_value`, so only that field is modelled. -/
structure ChoiceInfo where
  tri_value : Nat
deriving DecidableEq

/-- Snapshot of a kconfiglib `Symbol` restricted to the attributes the script
reads: `name`, `type`, `tri_value`, `str_value`, `user_value`, `visibility`,
`assignable`, `choice`, `nodes`. -/
structure SymbolS where
  name : String
  type : SymType
  tri_value : Nat
  str_value : String
  user_value : Option Val
  visibility : Nat
  assignable : List Nat
  choice : Option ChoiceInfo
  nodes : List SymNode
deriving DecidableEq

/-- Snapshot of a kconfiglib `Choice` restricted to the attributes the script
reads: `visibility`, `user_selection`, `selection`, `syms`.  The
`user_selection` / `selection` fields hold the selected member symbol (`None`
when absent). -/
structure ChoiceS where
  visibility : Nat
  user_selection : Option SymbolS
  selection : Option SymbolS
  syms : List SymbolS
deriving DecidableEq

/-- `node.item`: a `Symbol`, a `Choice`, or anything else (menus, comments),
which the script filters out with its `isinstance` check. -/
inductive Item where
  | sym (s : SymbolS)
  | choice (c : ChoiceS)
  | other
deriving DecidableEq

/-- The fields of a `MenuNode` that `do_oldconfig_for_node` reads:
`node.prompt` (optional `(text, cond)`; only the text is kept), `node.filename`,
`node.linenr`, `node.item`. -/
structure NodeData where
  prompt : Option String
  filename : String
  linenr : Nat
  item : Item
deriving DecidableEq

/-- The menu-node tree through the `node.list` (first child) and `node.next`
(next sibling) links; `nil` is Python's `None`. -/
inductive MNode where
  | nil
  | node (data : NodeData) (list : MNode) (next : MNode)
deriving DecidableEq

/-- `isinstance(node.item, (Symbol, Choice))` from line 150. -/
def Item.isConfigurable : Item → Bool
  | Item.sym _ => true
  | Item.choice _ => true
  | Item.other => false

/-- `node.item.visibility` (line 154); only read on symbols and choices. -/
def Item.visibility : Item → Nat
  | Item.sym s => s.visibility
  | Item.choice c => c.visibility
  | Item.other => 0

/-- Display events and error reports printed by the script, in order. -/
inductive Event where
  | prompt (s : String)
  | errTristate
  | errBadIndex
  | choiceHeader (s : String)
  | choiceOption (marker : Bool) (idx : Nat) (text : String) (name : String)
  | choicePrompt (s : String)
deriving DecidableEq

/-- Python exceptions the script can raise from unguarded accesses:
`sym.nodes[0]` on an empty list (IndexError), `prompt[0]` on `None`
(TypeError), `choice.selection.set_value` on `None` (AttributeError). -/
inductive PyErr where
  | indexError
  | typeError
  | attrError
deriving DecidableEq

/-- Result of running a piece of the script on a list of input lines:
the display events produced, the successful/issued `set_value` calls
(symbol name and value), the unconsumed input lines, whether the piece
returned normally (`done = false` models end-of-file on `input()` or an
uncaught exception), and the exception if one was raised. -/
structure LoopOut where
  events : List Event
  muts : List (String × Val)
  rest : List String
  done : Bool
  err : Option PyErr
deriving DecidableEq

/-- Result of the early `return`s: nothing displayed, nothing assigned. -/
def skipReturn (ins : List String) : LoopOut :=
  { events := [], muts := [], rest := ins, done := true, err := none }

/-- Prepend events produced by one loop iteration to the result of the
remaining iterations (`continue` in the Python loops). -/
def addEvents (es : List Event) (r : LoopOut) : LoopOut :=
  { r with events := es ++ r.events }

/-- `p.isPrefixOf`-style check on char lists, for Python's `str.startswith`. -/
def listBegins : List Char → List Char → Bool
  | [], _ => true
  | _ :: _, [] => false
  | p :: ps, c :: cs => p == c && listBegins ps cs

/-- Python `s.startswith(p)`. -/
def strBegins (s p : String) : Bool := listBegins p.data s.data

/-- Modelled from the spec: kconfiglib's `STR_TO_TRI` table, "the fixed table
{\"n\":0, \"m\":1, \"y\":2} (case-sensitive single-letter tokens)".  `none`
models `val not in STR_TO_TRI`. -/
def STR_TO_TRI (s : String) : Option Nat :=
  if s = "n" then some 0
  else if s = "m" then some 1
  else if s = "y" then some 2
  else none

/-- Digits of a decimal literal to its value. -/
def digitsToNat (cs : List Char) : Nat :=
  cs.foldl (fun a c => 10 * a + (c.toNat - '0'.toNat)) 0

/-- Python `int(s)` (base 10): optional sign followed by at least one digit;
anything else raises ValueError (`none`). -/
def pyInt (s : String) : Option Int :=
  match s.data with
  | '-' :: cs =>
      if cs ≠ [] ∧ cs.all Char.isDigit then some (-(digitsToNat cs : Int)) else none
  | '+' :: cs =>
      if cs ≠ [] ∧ cs.all Char.isDigit then some (digitsToNat cs : Int) else none
  | cs =>
      if cs ≠ [] ∧ cs.all Char.isDigit then some (digitsToNat cs : Int) else none

/-- Hexadecimal digit test, for Python `int(s, 16)`. -/
def isHexDigit (c : Char) : Bool :=
  c.isDigit || ('a' ≤ c && c ≤ 'f') || ('A' ≤ c && c ≤ 'F')

/-- Modelled from the spec: validity of a hex candidate for the Configuration
Model's setter (kconfiglib parses the value with Python `int(value, 16)`):
an optional `0x`/`0X` prefixed string of at least one hex digit.  In
particular the bare string `"0x"` is invalid. -/
def hexValid (s : String) : Bool :=
  let cs := match s.data with
    | '0' :: 'x' :: rest => rest
    | '0' :: 'X' :: rest => rest
    | cs => cs
  !cs.isEmpty && cs.all isHexDigit

/-- Modelled from the spec: the Configuration Model's validating setter
`sym.set_value(val)` (kconfiglib, outside this source tree) returns success or
failure.  A bool/tristate symbol accepts a tri-state level iff it is currently
in the symbol's `assignable` set ("the set of tri-state levels the user may
currently choose"); a string symbol accepts any string; an int/hex symbol
accepts a candidate iff it parses in base 10/16.  The script never passes a
string to a bool/tristate symbol nor a tri-state level to the other types, so
those combinations are rejected. -/
def set_value (sym : SymbolS) (v : Val) : Bool :=
  match v with
  | Val.tri t =>
      if (sym.type = SymType.BOOL ∨ sym.type = SymType.TRISTATE) ∧ t ∈ sym.assignable
      then true else false
  | Val.str s =>
      match sym.type with
      | SymType.STRING => true
      | SymType.INT => (pyInt s).isSome
      | SymType.HEX => hexValid s
      | _ => false

/-- `name_and_loc_str(sym)` (lines 109-117). -/
def name_and_loc_str (sym : SymbolS) : String :=
  sym.name ++ ", defined at " ++
    String.intercalate ", "
      (sym.nodes.map (fun n => n.filename ++ ":" ++ toString n.linenr))

/-- `default_value_str(sym)` (lines 119-142): the `n/M/y` hint for
bool/tristate (uppercase for the level equal to the current value, only
assignable levels listed), the current string value otherwise. -/
def default_value_str (sym : SymbolS) : String :=
  if sym.type = SymType.BOOL ∨ sym.type = SymType.TRISTATE then
    String.intercalate "/"
      ((if 0 ∈ sym.assignable then [if sym.tri_value = 0 then "N" else "n"] else []) ++
       (if 1 ∈ sym.assignable then [if sym.tri_value = 1 then "M" else "m"] else []) ++
       (if 2 ∈ sym.assignable then [if sym.tri_value = 2 then "Y" else "y"] else []))
  else
    sym.str_value

/-- The prompt string of the symbol input loop (lines 180-182):
`"{} ({}) [{}] "` with the node prompt text, `name_and_loc_str` and
`default_value_str`.  `node.prompt` is guarded non-`None` before the loop, so
the `getD` default is unreachable. -/
def promptStr (nd : NodeData) (sym : SymbolS) : String :=
  (nd.prompt.getD "") ++ " (" ++ name_and_loc_str sym ++ ") [" ++
    default_value_str sym ++ "] "

/-- The hex normalization of lines 195-199: prepend `"0x"` unless the
candidate already starts with `0x`/`0X`; only applied to hex symbols.  (For
bool/tristate symbols the candidate is already a tri-state level at this
point, so this helper is only reached for the other types.) -/
def hexCandidate (ty : SymType) (v : String) : String :=
  if ty = SymType.HEX ∧ strBegins v "0x" = false ∧ strBegins v "0X" = false
  then "0x" ++ v else v

/-- One iteration of the symbol input loop (lines 179-205) on input line `s`,
with `rest` the input lines remaining after `s` and `cont` the result of the
remaining iterations (taken on `continue`). -/
def symStep (nd : NodeData) (sym : SymbolS) (s : String) (rest : List String)
    (cont : LoopOut) : LoopOut :=
  let ev := Event.prompt (promptStr nd sym)
  -- lines 184-187: substitute a blank string with the default value
  let v0 := if s = "" then sym.str_value else s
  if sym.type = SymType.BOOL ∨ sym.type = SymType.TRISTATE then
    -- lines 189-193
    match STR_TO_TRI v0 with
    | none => addEvents [ev, Event.errTristate] cont
    | some t =>
        if set_value sym (Val.tri t) then
          { events := [ev], muts := [(sym.name, Val.tri t)], rest := rest,
            done := true, err := none }
        else
          addEvents [ev] cont
  else
    -- lines 195-205
    let v1 := hexCandidate sym.type v0
    if set_value sym (Val.str v1) then
      { events := [ev], muts := [(sym.name, Val.str v1)], rest := rest,
        done := true, err := none }
    else
      addEvents [ev] cont

/-- The symbol input loop: one `input()` per iteration.  Exhausting the input
list models `input()` raising EOFError after printing the prompt, so the loop
neither assigns nor returns (`done = false`). -/
def symLoop (nd : NodeData) (sym : SymbolS) : List String → LoopOut
  | [] =>
      { events := [Event.prompt (promptStr nd sym)], muts := [], rest := [],
        done := false, err := none }
  | s :: rest => symStep nd sym s rest (symLoop nd sym rest)

/-- The marker glyph test of line 231: `choice.selection is sym`.  kconfiglib
keeps one `Symbol` object per name, so Python object identity is embedded as
name equality. -/
def markerFor (c : ChoiceS) (sym : SymbolS) : Bool :=
  match c.selection with
  | some sel => sel.name == sym.name
  | none => false

/-- The option display of lines 229-236: one line per option, with the
1-based index `i`, reading `sym.nodes[0].prompt[0]` without any guard.  An
option with no defining node raises IndexError at `sym.nodes[0]`; a first
node without a prompt raises TypeError at `prompt[0]` (`None[0]`).  Returns
the events printed before any exception, and the exception if one occurred. -/
def displayOptions (c : ChoiceS) : Nat → List SymbolS → List Event × Option PyErr
  | _, [] => ([], none)
  | i, sym :: ss =>
      match sym.nodes with
      | [] => ([], some PyErr.indexError)
      | n0 :: _ =>
          match n0.prompt with
          | none => ([], some PyErr.typeError)
          | some text =>
              let r := displayOptions c (i + 1) ss
              (Event.choiceOption (markerFor c sym) i text sym.name :: r.1, r.2)

/-- The choice header of lines 226-227: `"{} (defined at {}:{})"`. -/
def choiceHeaderStr (nd : NodeData) : String :=
  (nd.prompt.getD "") ++ " (defined at " ++ nd.filename ++ ":" ++
    toString nd.linenr ++ ")"

/-- The input prompt of line 238: `"choice[1-{}]: "`. -/
def choicePromptStr (options : List SymbolS) : String :=
  "choice[1-" ++ toString options.length ++ "]: "

/-- The events printed by one complete iteration of the choice selection loop
before the input line is consumed (header, option lines, input prompt). -/
def choiceIterEvents (nd : NodeData) (c : ChoiceS) (options : List SymbolS) :
    List Event :=
  Event.choiceHeader (choiceHeaderStr nd) :: (displayOptions c 1 options).1 ++
    [Event.choicePrompt (choicePromptStr options)]

/-- One iteration of the choice selection loop (lines 225-257) on input line
`s`, with `rest` the remaining input and `cont` the result of the remaining
iterations (taken on `continue`). -/
def choiceStep (nd : NodeData) (c : ChoiceS) (options : List SymbolS)
    (s : String) (rest : List String) (cont : LoopOut) : LoopOut :=
  let disp := displayOptions c 1 options
  match disp.2 with
  | some e =>
      -- the display raised before `input()` ran: input line not consumed
      { events := Event.choiceHeader (choiceHeaderStr nd) :: disp.1,
        muts := [], rest := s :: rest, done := false, err := some e }
  | none =>
      if s = "" then
        -- lines 240-243: pick the default selection on a blank string;
        -- `choice.selection.set_value(2)` raises AttributeError when the
        -- selection is None
        match c.selection with
        | none =>
            { events := choiceIterEvents nd c options, muts := [],
              rest := rest, done := false, err := some PyErr.attrError }
        | some sel =>
            { events := choiceIterEvents nd c options,
              muts := [(sel.name, Val.tri 2)], rest := rest, done := true,
              err := none }
      else
        match pyInt s with
        | none => addEvents (choiceIterEvents nd c options ++ [Event.errBadIndex]) cont
        | some i =>
            if 1 ≤ i ∧ i ≤ (options.length : Int) then
              match options.get? (i.toNat - 1) with
              | some osym =>
                  -- line 256; the return value of set_value is ignored here
                  { events := choiceIterEvents nd c options,
                    muts := [(osym.name, Val.tri 2)], rest := rest,
                    done := true, err := none }
              | none =>
                  -- unreachable: the index was just bounds-checked
                  { events := choiceIterEvents nd c options, muts := [],
                    rest := rest, done := false, err := some PyErr.indexError }
            else
              addEvents (choiceIterEvents nd c options ++ [Event.errBadIndex]) cont

/-- The choice selection loop: one `input()` per iteration.  Exhausting the
input list models EOFError on `input()` after the iteration's display ran. -/
def choiceLoop (nd : NodeData) (c : ChoiceS) (options : List SymbolS) :
    List String → LoopOut
  | [] =>
      let disp := displayOptions c 1 options
      match disp.2 with
      | some e =>
          { events := Event.choiceHeader (choiceHeaderStr nd) :: disp.1,
            muts := [], rest := [], done := false, err := some e }
      | none =>
          { events := choiceIterEvents nd c options, muts := [], rest := [],
            done := false, err := none }
  | s :: rest => choiceStep nd c options s rest (choiceLoop nd c options rest)

/-- `sym.choice and sym.choice.tri_value == 2` (line 174). -/
def inChoiceYMode (sym : SymbolS) : Bool :=
  match sym.choice with
  | some ci => ci.tri_value == 2
  | none => false

/-- `choice.user_selection and choice.user_selection.visibility == 2`
(line 211). -/
def userSelVisibleY (c : ChoiceS) : Bool :=
  match c.user_selection with
  | some s => s.visibility == 2
  | none => false

/-- The symbol half of `do_oldconfig_for_node` (lines 161-205): the three
symbol-specific skip checks, then the symbol input loop. -/
def symPart (nd : NodeData) (sym : SymbolS) (ins : List String) : LoopOut :=
  -- line 165: skip symbols that already have a user value
  if sym.user_value ≠ none then skipReturn ins
  -- line 169: skip symbols that can only have a single value
  else if sym.assignable.length = 1 then skipReturn ins
  -- line 174: skip symbols in choices in y mode
  else if inChoiceYMode sym then skipReturn ins
  else symLoop nd sym ins

/-- The choice half of `do_oldconfig_for_node` (lines 207-257): the two
choice-specific skip checks, then the selection loop over the y-visible
member symbols. -/
def choicePart (nd : NodeData) (c : ChoiceS) (ins : List String) : LoopOut :=
  -- line 211: skip choices that already have a visible user selection
  if userSelVisibleY c then skipReturn ins
  else
    -- line 217: the y-visible choice value symbols, in order
    let options := c.syms.filter (fun s => s.visibility == 2)
    -- line 220: no y-visible choice value symbols
    if options = [] then skipReturn ins
    else choiceLoop nd c options ins

/-- `do_oldconfig_for_node(node)` (lines 144-257), on a list of input lines. -/
def do_oldconfig_for_node (nd : NodeData) (ins : List String) : LoopOut :=
  -- line 150: only symbols and choices can be configured
  if nd.item.isConfigurable = false then skipReturn ins
  -- line 154: skip symbols and choices that aren't visible
  else if nd.item.visibility = 0 then skipReturn ins
  -- line 158: skip symbols and choices without a prompt at this location
  else if nd.prompt = none then skipReturn ins
  else
    match nd.item with
    | Item.sym sym => symPart nd sym ins
    | Item.choice c => choicePart nd c ins
    | Item.other => skipReturn ins

/-- Sequential composition of two run results: the second runs on what the
first left behind. -/
def stepW (r1 r2 : LoopOut) : LoopOut :=
  { events := r1.events ++ r2.events, muts := r1.muts ++ r2.muts,
    rest := r2.rest, done := r2.done, err := r2.err }

/-- `do_oldconfig(node)` (lines 259-266): process the node, then its child
chain (`node.list`), then continue with `node.next`; `MNode.nil` is the
terminating null reference.  A run whose `done` is false (EOF or a Python
exception) aborts the remaining traversal, as the exception would in
Python. -/
def do_oldconfig : MNode → List String → LoopOut
  | MNode.nil, ins => skipReturn ins
  | MNode.node d child sib, ins =>
      let r1 := do_oldconfig_for_node d ins
      if r1.done = false then r1
      else
        let r2 := do_oldconfig child r1.rest
        if r2.done = false then stepW r1 r2
        else stepW r1 (stepW r2 (do_oldconfig sib r2.rest))

/-- The document-order node list the specification describes: a node first,
then its child chain, then its following siblings. -/
def preorder : MNode → List NodeData
  | MNode.nil => []
  | MNode.node d child sib => d :: (preorder child ++ preorder sib)

/-- The iterative form of the walk: process a flat list of nodes left to
right, aborting when a node's run does not return normally. -/
def runSeq : List NodeData → List String → LoopOut
  | [], ins => skipReturn ins
  | d :: ds, ins =>
      let r1 := do_oldconfig_for_node d ins
      if r1.done = false then r1 else stepW r1 (runSeq ds r1.rest)

/-- Modelled from the spec: the `.config` loading path (`Kconfig.load_config`,
outside this source tree) passes each literal value found in the file to the
setter unchanged; the interactive `0x` normalization is never applied there. -/
def load_config_candidate (raw : String) : String := raw


/-- The skip conditions of claim C1, in the order the source checks them
(lines 150, 154, 158, 165, 169, 174). -/
def skip_condition (nd : NodeData) : Prop :=
  nd.item.isConfigurable = false ∨
  nd.item.visibility = 0 ∨
  nd.prompt = none ∨
  (∃ s, nd.item = Item.sym s ∧
    (s.user_value ≠ none ∨ s.assignable.length = 1 ∨ inChoiceYMode s = true))

/-- A menu/comment node: its item is neither a Symbol nor a Choice. -/
def ndMenuW : NodeData :=
  { prompt := some "General setup", filename := "K", linenr := 1,
    item := Item.other }

/-- A tristate symbol as in the sample session, fully assignable, no user
value yet. -/
def symTriW : SymbolS :=
  { name := "T", type := SymType.TRISTATE, tri_value := 1, str_value := "m",
    user_value := none, visibility := 2, assignable := [0, 1, 2],
    choice := none,
    nodes := [{ prompt := some "T prompt", filename := "K", linenr := 9 }] }

/-- The menu node carrying `symTriW`. -/
def ndTriW : NodeData :=
  { prompt := some "T prompt", filename := "K", linenr := 9,
    item := Item.sym symTriW }

/-- First choice option (as CHOICE_A in the sample session). -/
def optAW : SymbolS :=
  { name := "A", type := SymType.BOOL, tri_value := 0, str_value := "n",
    user_value := none, visibility := 2, assignable := [0, 2],
    choice := some { tri_value := 2 },
    nodes := [{ prompt := some "A prompt", filename := "K", linenr := 24 }] }

/-- Second choice option (as CHOICE_B, the default selection). -/
def optBW : SymbolS :=
  { name := "B", type := SymType.BOOL, tri_value := 2, str_value := "y",
    user_value := none, visibility := 2, assignable := [0, 2],
    choice := some { tri_value := 2 },
    nodes := [{ prompt := some "B prompt", filename := "K", linenr := 27 }] }

/-- A two-option choice whose derived selection is `optBW`, with no user
selection yet. -/
def chW : ChoiceS :=
  { visibility := 2, user_selection := none, selection := some optBW,
    syms := [optAW, optBW] }

/-- The menu node carrying `chW`. -/
def ndChW : NodeData :=
  { prompt := some "A choice", filename := "K", linenr := 23,
    item := Item.choice chW }

/-- The y-visible options of `chW`, in order. -/
def optsW : List SymbolS := [optAW, optBW]

/-- A hex symbol with current value "12" and no user value. -/
def symHexW : SymbolS :=
  { name := "H", type := SymType.HEX, tri_value := 0, str_value := "12",
    user_value := none, visibility := 2, assignable := [],
    choice := none,
    nodes := [{ prompt := some "H prompt", filename := "K", linenr := 20 }] }

/-- The menu node carrying `symHexW`. -/
def ndHexW : NodeData :=
  { prompt := some "H prompt", filename := "K", linenr := 20,
    item := Item.sym symHexW }

/-- An option can be displayed by lines 229-236 without an exception iff it
has at least one defining node and that first node carries a prompt. -/
def optionDisplayable (s : SymbolS) : Bool :=
  match s.nodes with
  | [] => false
  | n :: _ => n.prompt.isSome

/-- A hex symbol whose current value is the empty string (a hex symbol with
no default, as HEX_SYM in the sample session before any assignment). -/
def symHexEmpty : SymbolS :=
  { name := "HE", type := SymType.HEX, tri_value := 0, str_value := "",
    user_value := none, visibility := 2, assignable := [], choice := none,
    nodes := [{ prompt := some "HE prompt", filename := "K", linenr := 20 }] }

/-- The menu node carrying `symHexEmpty`. -/
def ndHexEmpty : NodeData :=
  { prompt := some "HE prompt", filename := "K", linenr := 20,
    item := Item.sym symHexEmpty }

/-- A choice member that carries a user-made selection but is no longer fully
visible (visibility 1). -/
def symSelLow : SymbolS :=
  { name := "L", type := SymType.BOOL, tri_value := 0, str_value := "n",
    user_value := some (Val.tri 2), visibility := 1, assignable := [],
    choice := some { tri_value := 2 },
    nodes := [{ prompt := some "L prompt", filename := "K", linenr := 30 }] }

/-- A fully visible choice member with no user value. -/
def symVisB : SymbolS :=
  { name := "V", type := SymType.BOOL, tri_value := 2, str_value := "y",
    user_value := none, visibility := 2, assignable := [0, 2],
    choice := some { tri_value := 2 },
    nodes := [{ prompt := some "V prompt", filename := "K", linenr := 31 }] }

/-- A choice that already has a user-made selection (`symSelLow`), but that
selection's visibility is 1, not the top level 2. -/
def chC8 : ChoiceS :=
  { visibility := 2, user_selection := some symSelLow,
    selection := some symVisB, syms := [symSelLow, symVisB] }

/-- The menu node carrying `chC8`. -/
def ndC8 : NodeData :=
  { prompt := some "C8 choice", filename := "K", linenr := 29,
    item := Item.choice chC8 }

/-- A one-node menu tree holding only `chC8`. -/
def treeC8 : MNode := MNode.node ndC8 MNode.nil MNode.nil

/-- A fully visible choice member that already has a user-assigned value
(level 0, as loaded from a "# CONFIG_U is not set" line). -/
def symUVal : SymbolS :=
  { name := "U", type := SymType.BOOL, tri_value := 0, str_value := "n",
    user_value := some (Val.tri 0), visibility := 2, assignable := [0, 2],
    choice := some { tri_value := 2 },
    nodes := [{ prompt := some "U prompt", filename := "K", linenr := 33 }] }

/-- A choice with no user selection whose only visible member is `symUVal`. -/
def chC8b : ChoiceS :=
  { visibility := 2, user_selection := none, selection := some symUVal,
    syms := [symUVal] }

/-- The menu node carrying `chC8b`. -/
def ndC8b : NodeData :=
  { prompt := some "C8b choice", filename := "K", linenr := 32,
    item := Item.choice chC8b }

/-- A one-node menu tree holding only `chC8b`. -/
def treeC8b : MNode := MNode.node ndC8b MNode.nil MNode.nil

/-- A visible bool symbol that already has a user value. -/
def symUserW : SymbolS :=
  { name := "S", type := SymType.BOOL, tri_value := 2, str_value := "y",
    user_value := some (Val.tri 2), visibility := 2, assignable := [0, 2],
    choice := none,
    nodes := [{ prompt := some "S prompt", filename := "K", linenr := 5 }] }

/-- The menu node carrying `symUserW`. -/
def ndUserW : NodeData :=
  { prompt := some "S prompt", filename := "K", linenr := 5,
    item := Item.sym symUserW }

/-- A fully visible choice member of a choice with no current selection. -/
def symNoSel : SymbolS :=
  { name := "N", type := SymType.BOOL, tri_value := 0, str_value := "n",
    user_value := none, visibility := 2, assignable := [0, 2],
    choice := some { tri_value := 2 },
    nodes := [{ prompt := some "N prompt", filename := "K", linenr := 40 }] }

/-- A choice with a visible member whose `selection` is absent (`None`). -/
def chC9 : ChoiceS :=
  { visibility := 2, user_selection := none, selection := none,
    syms := [symNoSel] }

/-- The menu node carrying `chC9`. -/
def ndC9 : NodeData :=
  { prompt := some "C9 choice", filename := "K", linenr := 39,
    item := Item.choice chC9 }

/-- A one-node menu tree holding only `chC9`. -/
def treeC9 : MNode := MNode.node ndC9 MNode.nil MNode.nil

/-- A fully visible choice member with no defining node at all. -/
def symNoNodes : SymbolS :=
  { name := "Z", type := SymType.BOOL, tri_value := 0, str_value := "n",
    user_value := none, visibility := 2, assignable := [0, 2],
    choice := some { tri_value := 2 }, nodes := [] }

/-- A choice whose only visible member has no defining node. -/
def chC10 : ChoiceS :=
  { visibility := 2, user_selection := none, selection := none,
    syms := [symNoNodes] }

/-- The menu node carrying `chC10`. -/
def ndC10 : NodeData :=
  { prompt := some "C10 choice", filename := "K", linenr := 50,
    item := Item.choice chC10 }

/-!  Theorems  -/


theorem skip_condition_no_effect (nd : NodeData) (ins : List String)
    (h : skip_condition nd) :
    do_oldconfig_for_node nd ins = skipReturn ins := by
  unfold do_oldconfig_for_node
  by_cases h1 : nd.item.isConfigurable = false
  · rw [if_pos h1]
  rw [if_neg h1]
  by_cases h2 : nd.item.visibility = 0
  · rw [if_pos h2]
  rw [if_neg h2]
  by_cases h3 : nd.prompt = none
  · rw [if_pos h3]
  rw [if_neg h3]
  rcases h with h | h | h | ⟨s, hitem, hd⟩
  · exact absurd h h1
  · exact absurd h h2
  · exact absurd h h3
  rw [hitem]
  show symPart nd s ins = skipReturn ins
  unfold symPart
  rcases hd with hd | hd | hd
  · rw [if_pos hd]
  · by_cases h4 : s.user_value ≠ none
    · rw [if_pos h4]
    · rw [if_neg h4, if_pos hd]
  · by_cases h4 : s.user_value ≠ none
    · rw [if_pos h4]
    rw [if_neg h4]
    by_cases h5 : s.assignable.length = 1
    · rw [if_pos h5]
    · rw [if_neg h5, if_pos hd]


/-- C1: whenever any of the six skip conditions holds for a menu node —
(1) the item is neither a Symbol nor a Choice, (2) the item's visibility is
the invisible level 0, (3) the node has no prompt text, and for symbols
(4) a user value already exists, (5) the assignable set has exactly one
member, (6) the symbol is in a choice whose current tri-state value is the
top level 2 — `do_oldconfig_for_node` performs no prompt and no state
mutation: it returns with an empty event log, an empty mutation log, and the
input untouched.  The embedded definition checks the conditions in the
source's order. -/
theorem C1_skip_no_prompt_no_mutation (nd : NodeData) (ins : List String)
    (h : skip_condition nd) :
    do_oldconfig_for_node nd ins = skipReturn ins :=
  skip_condition_no_effect nd ins h

/-- Witness for C1 at a concrete node: the first skip condition holds and the
prompter leaves everything untouched. -/
theorem C1_skip_no_prompt_no_mutation_witness :
    skip_condition ndMenuW ∧
      do_oldconfig_for_node ndMenuW ["x"] = skipReturn ["x"] :=
  ⟨Or.inl rfl, C1_skip_no_prompt_no_mutation ndMenuW ["x"] (Or.inl rfl)⟩

theorem stepW_assoc (a b c : LoopOut) :
    stepW (stepW a b) c = stepW a (stepW b c) := by
  simp [stepW, List.append_assoc]

theorem stepW_skip_left (ins : List String) (r : LoopOut) :
    stepW (skipReturn ins) r = r := rfl

theorem runSeq_append (xs ys : List NodeData) (ins : List String) :
    runSeq (xs ++ ys) ins =
      (if (runSeq xs ins).done = false then runSeq xs ins
       else stepW (runSeq xs ins) (runSeq ys (runSeq xs ins).rest)) := by
  induction xs generalizing ins with
  | nil =>
      rw [List.nil_append,
        if_neg (show ¬(runSeq ([] : List NodeData) ins).done = false by
          simp [runSeq, skipReturn])]
      exact (stepW_skip_left ins (runSeq ys ins)).symm
  | cons d ds ih =>
      rw [List.cons_append]
      simp only [runSeq]
      by_cases h1 : (do_oldconfig_for_node d ins).done = false
      · simp [h1]
      · rw [if_neg h1, if_neg h1, ih]
        by_cases h2 : (runSeq ds (do_oldconfig_for_node d ins).rest).done = false
        · simp [h2, stepW]
        · simp [h2, stepW, List.append_assoc]

/-- C5: the recursive walk `do_oldconfig` is the iterative left-to-right run
over the document-order (preorder) node list: each node of the sibling chain
is visited in order, a node's child chain is walked before the node's next
sibling, and the traversal ends exactly where the node list derived from the
null-terminated links ends. -/
theorem C5_walk_is_preorder (t : MNode) (ins : List String) :
    do_oldconfig t ins = runSeq (preorder t) ins := by
  induction t generalizing ins with
  | nil => rfl
  | node d child sib ihc ihs =>
      simp only [preorder, runSeq, do_oldconfig]
      rw [runSeq_append, ← ihc]
      by_cases h1 : (do_oldconfig_for_node d ins).done = false
      · simp [h1]
      · rw [if_neg h1, if_neg h1]
        by_cases h2 :
            (do_oldconfig child (do_oldconfig_for_node d ins).rest).done = false
        · simp [h2, stepW]
        · simp [h2, stepW, List.append_assoc, ihs]

/-- C2: in the symbol input loop of a bool/tristate symbol, every non-blank
input line is looked up in the fixed case-sensitive table `STR_TO_TRI`
(n to 0, m to 1, y to 2).  An input not in the table makes the loop report
"Invalid tristate value" and re-prompt with no state mutated (the iteration
contributes only its prompt and the error report, and the loop continues on
the remaining input); an input in the table whose level is currently
assignable terminates the loop with exactly that level assigned. -/
theorem C2_tristate_input (nd : NodeData) (sym : SymbolS) (s : String)
    (rest : List String)
    (hty : sym.type = SymType.BOOL ∨ sym.type = SymType.TRISTATE)
    (hs : ¬s = "") :
    (STR_TO_TRI s = none →
      symLoop nd sym (s :: rest) =
        addEvents [Event.prompt (promptStr nd sym), Event.errTristate]
          (symLoop nd sym rest)) ∧
    (∀ t, STR_TO_TRI s = some t → t ∈ sym.assignable →
      symLoop nd sym (s :: rest) =
        { events := [Event.prompt (promptStr nd sym)],
          muts := [(sym.name, Val.tri t)], rest := rest, done := true,
          err := none }) := by
  constructor
  · intro hmap
    show symStep nd sym s rest (symLoop nd sym rest) = _
    simp only [symStep, if_neg hs, if_pos hty]
    rw [hmap]
  · intro t hmap hmem
    have hsv : set_value sym (Val.tri t) = true := by
      show (if (sym.type = SymType.BOOL ∨ sym.type = SymType.TRISTATE) ∧
              t ∈ sym.assignable then true else false) = true
      rw [if_pos ⟨hty, hmem⟩]
    show symStep nd sym s rest (symLoop nd sym rest) = _
    simp only [symStep, if_neg hs, if_pos hty]
    rw [hmap]
    show (if set_value sym (Val.tri t) = true then _ else _) = _
    rw [if_pos hsv]



/-- Witness for C2 at concrete inputs: "foo" is rejected with the tristate
error and the loop continues; "y" terminates the loop with level 2
assigned. -/
theorem C2_tristate_input_witness :
    symLoop ndTriW symTriW ["foo"] =
      addEvents [Event.prompt (promptStr ndTriW symTriW), Event.errTristate]
        (symLoop ndTriW symTriW []) ∧
    symLoop ndTriW symTriW ["y"] =
      { events := [Event.prompt (promptStr ndTriW symTriW)],
        muts := [(symTriW.name, Val.tri 2)], rest := [], done := true,
        err := none } :=
  ⟨(C2_tristate_input ndTriW symTriW "foo" [] (Or.inr rfl) (by decide)).1 rfl,
   (C2_tristate_input ndTriW symTriW "y" [] (Or.inr rfl) (by decide)).2
     2 rfl (by decide)⟩

/-- C3: in the choice selection loop, a non-blank input that does not parse
as an integer and an input that parses to an integer outside
`[1, count(options)]` produce the same "Bad index" report and a re-prompt
with no state mutated (the iteration contributes its display and the error,
and the loop continues); an in-range index `i` terminates the loop with the
top tri-state level 2 assigned to the i-th displayed option (1-based). -/
theorem C3_choice_bad_index (nd : NodeData) (c : ChoiceS)
    (options : List SymbolS) (s : String) (rest : List String)
    (hs : ¬s = "")
    (hdisp : (displayOptions c 1 options).2 = none) :
    (pyInt s = none →
      choiceLoop nd c options (s :: rest) =
        addEvents (choiceIterEvents nd c options ++ [Event.errBadIndex])
          (choiceLoop nd c options rest)) ∧
    (∀ i : Int, pyInt s = some i → ¬(1 ≤ i ∧ i ≤ (options.length : Int)) →
      choiceLoop nd c options (s :: rest) =
        addEvents (choiceIterEvents nd c options ++ [Event.errBadIndex])
          (choiceLoop nd c options rest)) ∧
    (∀ (i : Int) (osym : SymbolS), pyInt s = some i →
      (1 ≤ i ∧ i ≤ (options.length : Int)) →
      options.get? (i.toNat - 1) = some osym →
      choiceLoop nd c options (s :: rest) =
        { events := choiceIterEvents nd c options,
          muts := [(osym.name, Val.tri 2)], rest := rest, done := true,
          err := none }) := by
  refine ⟨?_, ?_, ?_⟩
  · intro hpy
    show choiceStep nd c options s rest (choiceLoop nd c options rest) = _
    simp only [choiceStep]
    rw [hdisp]
    show (if s = "" then _ else _) = _
    rw [if_neg hs, hpy]
  · intro i hpy hrange
    show choiceStep nd c options s rest (choiceLoop nd c options rest) = _
    simp only [choiceStep]
    rw [hdisp]
    show (if s = "" then _ else _) = _
    rw [if_neg hs, hpy]
    show (if 1 ≤ i ∧ i ≤ (options.length : Int) then _ else _) = _
    rw [if_neg hrange]
  · intro i osym hpy hrange hget
    show choiceStep nd c options s rest (choiceLoop nd c options rest) = _
    simp only [choiceStep]
    rw [hdisp]
    show (if s = "" then _ else _) = _
    rw [if_neg hs, hpy]
    show (if 1 ≤ i ∧ i ≤ (options.length : Int) then _ else _) = _
    rw [if_pos hrange, hget]






/-- Witness for C3 at concrete inputs: "foo" (non-numeric) and "5"
(out of range) both re-prompt with the "Bad index" report and no mutation;
"1" terminates with option 1 assigned level 2. -/
theorem C3_choice_bad_index_witness :
    choiceLoop ndChW chW optsW ["foo"] =
      addEvents (choiceIterEvents ndChW chW optsW ++ [Event.errBadIndex])
        (choiceLoop ndChW chW optsW []) ∧
    choiceLoop ndChW chW optsW ["5"] =
      addEvents (choiceIterEvents ndChW chW optsW ++ [Event.errBadIndex])
        (choiceLoop ndChW chW optsW []) ∧
    choiceLoop ndChW chW optsW ["1"] =
      { events := choiceIterEvents ndChW chW optsW,
        muts := [(optAW.name, Val.tri 2)], rest := [], done := true,
        err := none } :=
  ⟨(C3_choice_bad_index ndChW chW optsW "foo" [] (by decide) (by decide)).1
     rfl,
   (C3_choice_bad_index ndChW chW optsW "5" [] (by decide) (by decide)).2.1
     5 rfl (by decide),
   (C3_choice_bad_index ndChW chW optsW "1" [] (by decide) (by decide)).2.2
     1 optAW rfl (by decide) rfl⟩

theorem strBegins_0x (v : String) : strBegins ("0x" ++ v) "0x" = true := by
  cases v with
  | mk l => rfl

theorem append_0x_ne_empty (v : String) : ¬("0x" ++ v) = "" := by
  cases v with
  | mk l =>
      intro h
      exact absurd (congrArg String.data h) (by simp [String.data])

/-- C4: in the symbol input loop of a hex symbol, a candidate that does not
already start with `0x`/`0X` has `0x` prepended before the assignment is
attempted, so the loop behaves identically on input "v" and input "0xv"
(e.g. "123" is assigned equivalently to "0x123"); a blank line is first
substituted with the current value and flows through the same normalization;
and the configuration-file loading path passes its literal through
unchanged, with no such normalization. -/
theorem C4_hex_normalization (nd : NodeData) (sym : SymbolS) (v : String)
    (rest : List String)
    (hty : sym.type = SymType.HEX)
    (hv : ¬v = "")
    (h0x : strBegins v "0x" = false)
    (h0X : strBegins v "0X" = false) :
    symLoop nd sym (v :: rest) = symLoop nd sym (("0x" ++ v) :: rest) ∧
    symLoop nd sym ("" :: rest) = symLoop nd sym (sym.str_value :: rest) ∧
    load_config_candidate v = v := by
  have hnotbt : ¬(sym.type = SymType.BOOL ∨ sym.type = SymType.TRISTATE) := by
    rw [hty]; decide
  refine ⟨?_, ?_, rfl⟩
  · show symStep nd sym v rest (symLoop nd sym rest) =
      symStep nd sym ("0x" ++ v) rest (symLoop nd sym rest)
    simp only [symStep, if_neg hv, if_neg (append_0x_ne_empty v),
      if_neg hnotbt]
    have hc1 : hexCandidate sym.type v = "0x" ++ v := by
      unfold hexCandidate
      rw [if_pos ⟨hty, h0x, h0X⟩]
    have hc2 : hexCandidate sym.type ("0x" ++ v) = "0x" ++ v := by
      unfold hexCandidate
      rw [if_neg]
      intro h
      rw [strBegins_0x v] at h
      exact absurd h.2.1 (by decide)
    rw [hc1, hc2]
  · show symStep nd sym "" rest (symLoop nd sym rest) =
      symStep nd sym sym.str_value rest (symLoop nd sym rest)
    simp [symStep, ite_self]



/-- Witness for C4 at a concrete hex symbol: input "123" runs exactly as
input "0x123", blank input runs as the current value "12", and the loading
path leaves "123" untouched. -/
theorem C4_hex_normalization_witness :
    symLoop ndHexW symHexW ["123"] = symLoop ndHexW symHexW ["0x123"] ∧
    symLoop ndHexW symHexW [""] = symLoop ndHexW symHexW ["12"] ∧
    load_config_candidate "123" = "123" :=
  C4_hex_normalization ndHexW symHexW "123" [] rfl (by decide) (by decide)
    (by decide)

theorem choiceStep_events_ne_nil (nd : NodeData) (c : ChoiceS)
    (opts : List SymbolS) (s : String) (rest : List String) (cont : LoopOut) :
    ¬(choiceStep nd c opts s rest cont).events = [] := by
  simp only [choiceStep]
  cases hdp : (displayOptions c 1 opts).2 with
  | some e => simp
  | none =>
      repeat' split
      all_goals simp [choiceIterEvents, addEvents]

theorem choiceLoop_nil_not_done (nd : NodeData) (c : ChoiceS)
    (opts : List SymbolS) :
    (choiceLoop nd c opts []).done = false := by
  simp only [choiceLoop]
  cases hdp : (displayOptions c 1 opts).2 <;> rfl

theorem choiceLoop_ne_skip (nd : NodeData) (c : ChoiceS) (opts : List SymbolS)
    (ins : List String) :
    ¬choiceLoop nd c opts ins = skipReturn ins := by
  cases ins with
  | nil =>
      intro h
      have hd := congrArg LoopOut.done h
      rw [choiceLoop_nil_not_done] at hd
      exact Bool.noConfusion hd
  | cons s rest =>
      intro h
      have he := congrArg LoopOut.events h
      exact choiceStep_events_ne_nil nd c opts s rest _ he

theorem do_node_choice_red (nd : NodeData) (c : ChoiceS) (ins : List String)
    (hitem : nd.item = Item.choice c)
    (hvis : ¬c.visibility = 0)
    (hp : ¬nd.prompt = none) :
    do_oldconfig_for_node nd ins = choicePart nd c ins := by
  unfold do_oldconfig_for_node
  rw [hitem]
  rw [if_neg (show ¬(Item.choice c).isConfigurable = false by
        simp [Item.isConfigurable])]
  rw [if_neg (show ¬(Item.choice c).visibility = 0 from hvis)]
  rw [if_neg hp]

theorem userSelVisibleY_iff (c : ChoiceS) :
    userSelVisibleY c = true ↔
      ∃ s, c.user_selection = some s ∧ s.visibility = 2 := by
  unfold userSelVisibleY
  cases hu : c.user_selection with
  | none => simp
  | some s => simp [beq_iff_eq]

theorem choicePart_not_skipped (nd : NodeData) (c : ChoiceS) (ins : List String)
    (hu : ¬userSelVisibleY c = true)
    (hopts : ¬c.syms.filter (fun s => s.visibility == 2) = []) :
    choicePart nd c ins =
      choiceLoop nd c (c.syms.filter (fun s => s.visibility == 2)) ins := by
  simp only [choicePart]
  rw [if_neg hu, if_neg hopts]

/-- C6: for a choice node that reaches the choice branch (its item is a
Choice, visible, with a prompt), the prompter skips — no prompt, no mutation —
exactly when the choice already has a user-made selection whose visibility is
the top level 2, or when the ordered list of member symbols with visibility 2
is empty; otherwise the prompter runs the selection loop on exactly that
ordered filtered list. -/
theorem C6_choice_skip_iff (nd : NodeData) (c : ChoiceS) (ins : List String)
    (hitem : nd.item = Item.choice c)
    (hvis : ¬c.visibility = 0)
    (hp : ¬nd.prompt = none) :
    (do_oldconfig_for_node nd ins = skipReturn ins ↔
      ((∃ s, c.user_selection = some s ∧ s.visibility = 2) ∨
        c.syms.filter (fun s => s.visibility == 2) = [])) ∧
    (¬((∃ s, c.user_selection = some s ∧ s.visibility = 2) ∨
        c.syms.filter (fun s => s.visibility == 2) = []) →
      do_oldconfig_for_node nd ins =
        choiceLoop nd c (c.syms.filter (fun s => s.visibility == 2)) ins) := by
  have hred := do_node_choice_red nd c ins hitem hvis hp
  refine ⟨⟨?_, ?_⟩, ?_⟩
  · intro h
    by_contra hnot
    rw [not_or] at hnot
    obtain ⟨h1, h2⟩ := hnot
    rw [hred, choicePart_not_skipped nd c ins
        (fun hc => h1 ((userSelVisibleY_iff c).mp hc)) h2] at h
    exact choiceLoop_ne_skip nd c _ ins h
  · intro h
    rw [hred]
    simp only [choicePart]
    rcases h with h | h
    · rw [if_pos ((userSelVisibleY_iff c).mpr h)]
    · by_cases hu : userSelVisibleY c = true
      · rw [if_pos hu]
      · rw [if_neg hu, if_pos h]
  · intro h
    rw [not_or] at h
    obtain ⟨h1, h2⟩ := h
    exact hred.trans (choicePart_not_skipped nd c ins
      (fun hc => h1 ((userSelVisibleY_iff c).mp hc)) h2)

/-- Witness for C6 at a concrete choice with no user selection and two
visible options: it is not skipped and the selection loop runs on the
filtered member list. -/
theorem C6_choice_skip_iff_witness :
    do_oldconfig_for_node ndChW ["1"] =
      choiceLoop ndChW chW (chW.syms.filter (fun s => s.visibility == 2))
        ["1"] :=
  (C6_choice_skip_iff ndChW chW ["1"] rfl (by decide) (by decide)).2
    (by
      intro h
      rcases h with ⟨s, hs, _⟩ | h
      · exact Option.noConfusion hs
      · exact absurd h (by decide))

/-- Counterexample to C7: for the hex symbol `symHexEmpty`, whose current
textual value is the empty string, a blank input line substitutes "" as the
candidate, the hex normalization turns it into "0x", the setter rejects it,
and the loop does NOT terminate in that iteration: after consuming the blank
line the run is still unfinished and no assignment was made. -/
theorem C7_counterexample :
    (do_oldconfig_for_node ndHexEmpty [""]).done = false ∧
    (do_oldconfig_for_node ndHexEmpty [""]).muts = [] ∧
    (do_oldconfig_for_node ndHexEmpty [""]).rest = [] := by
  refine ⟨?_, ?_, ?_⟩ <;> decide

/-- Amended C7: for every non-skipped Symbol, a blank input line substitutes
the symbol's current textual value as the candidate; the loop terminates in
that same iteration provided the validating setter accepts the (normalized)
substituted default — for bool/tristate, when the level the current value maps
to is currently assignable; for the other types, when the hex-normalized
current value is accepted.  (The acceptance proviso is necessary: a hex
symbol with an empty current value yields the rejected candidate "0x" and the
loop re-prompts instead.) -/
theorem C7_blank_default_accepted (nd : NodeData) (sym : SymbolS)
    (rest : List String) :
    (∀ t, sym.type = SymType.BOOL ∨ sym.type = SymType.TRISTATE →
      STR_TO_TRI sym.str_value = some t → t ∈ sym.assignable →
      symLoop nd sym ("" :: rest) =
        { events := [Event.prompt (promptStr nd sym)],
          muts := [(sym.name, Val.tri t)], rest := rest, done := true,
          err := none }) ∧
    (¬(sym.type = SymType.BOOL ∨ sym.type = SymType.TRISTATE) →
      set_value sym (Val.str (hexCandidate sym.type sym.str_value)) = true →
      symLoop nd sym ("" :: rest) =
        { events := [Event.prompt (promptStr nd sym)],
          muts := [(sym.name, Val.str (hexCandidate sym.type sym.str_value))],
          rest := rest, done := true, err := none }) := by
  constructor
  · intro t hty hmap hmem
    have hsv : set_value sym (Val.tri t) = true := by
      show (if (sym.type = SymType.BOOL ∨ sym.type = SymType.TRISTATE) ∧
              t ∈ sym.assignable then true else false) = true
      rw [if_pos ⟨hty, hmem⟩]
    show symStep nd sym "" rest (symLoop nd sym rest) = _
    simp only [symStep, if_true, if_pos hty]
    rw [hmap]
    show (if set_value sym (Val.tri t) = true then _ else _) = _
    rw [if_pos hsv]
  · intro hty hset
    show symStep nd sym "" rest (symLoop nd sym rest) = _
    simp only [symStep, if_true, if_neg hty]
    rw [if_pos hset]

/-- Witness for the amended C7: on the tristate symbol `symTriW` (current
value "m", level 1 assignable) a blank input terminates the loop at once with
level 1 assigned. -/
theorem C7_blank_default_accepted_witness :
    symLoop ndTriW symTriW [""] =
      { events := [Event.prompt (promptStr ndTriW symTriW)],
        muts := [(symTriW.name, Val.tri 1)], rest := [], done := true,
        err := none } :=
  (C7_blank_default_accepted ndTriW symTriW []).1 1 (Or.inr rfl) rfl
    (by decide)

/-- Counterexample to C8: two items that already carry a user-made state
before the walk are nevertheless touched by the walk.  The choice `chC8` has
a user-made selection (of visibility 1, not 2), yet the walk prompts for it
(its event log is non-empty); and the symbol `symUVal` already has the
user-assigned value n (level 0), yet the walk, through its choice's prompt,
reassigns it to level 2. -/
theorem C8_counterexample :
    (chC8.user_selection = some symSelLow ∧
      ¬(do_oldconfig treeC8 ["1"]).events = []) ∧
    (symUVal.user_value = some (Val.tri 0) ∧
      (do_oldconfig treeC8b ["1"]).muts = [(symUVal.name, Val.tri 2)]) := by
  refine ⟨⟨rfl, ?_⟩, rfl, ?_⟩ <;> decide

/-- Amended C8: the per-item skip is what holds.  A Symbol node whose symbol
already has a user-assigned value is never prompted and never mutated by its
own prompter, and a Choice node whose user-made selection has visibility 2 is
never prompted and never mutated.  (A symbol's saved value can still change
through its containing choice's selection prompt, and a choice whose
user-made selection is not fully visible is re-prompted.) -/
theorem C8_amended_user_value_skip (nd : NodeData) (ins : List String) :
    (∀ s, nd.item = Item.sym s → ¬s.user_value = none →
      do_oldconfig_for_node nd ins = skipReturn ins) ∧
    (∀ c s, nd.item = Item.choice c → c.user_selection = some s →
      s.visibility = 2 → do_oldconfig_for_node nd ins = skipReturn ins) := by
  constructor
  · intro s hitem huser
    exact skip_condition_no_effect nd ins
      (Or.inr (Or.inr (Or.inr ⟨s, hitem, Or.inl huser⟩)))
  · intro c s hitem husel hvis
    unfold do_oldconfig_for_node
    by_cases h1 : nd.item.isConfigurable = false
    · rw [if_pos h1]
    rw [if_neg h1]
    by_cases h2 : nd.item.visibility = 0
    · rw [if_pos h2]
    rw [if_neg h2]
    by_cases h3 : nd.prompt = none
    · rw [if_pos h3]
    rw [if_neg h3]
    rw [hitem]
    show choicePart nd c ins = skipReturn ins
    simp only [choicePart]
    rw [if_pos ((userSelVisibleY_iff c).mpr ⟨s, husel, hvis⟩)]

/-- Witness for the amended C8 at a concrete symbol with a user value: its
node is skipped untouched. -/
theorem C8_amended_user_value_skip_witness :
    do_oldconfig_for_node ndUserW ["x"] = skipReturn ["x"] :=
  (C8_amended_user_value_skip ndUserW ["x"]).1 symUserW rfl (by decide)

/-- Counterexample to C9: on the choice `chC9`, whose current selection is
absent, a blank input line on the selection loop raises an AttributeError
(`None.set_value`) that escapes the item's loop and aborts the whole walk:
the walk's run ends with the error set, unfinished, and with no
assignment. -/
theorem C9_counterexample :
    (do_oldconfig treeC9 [""]).err = some PyErr.attrError ∧
    (do_oldconfig treeC9 [""]).done = false ∧
    (do_oldconfig treeC9 [""]).muts = [] := by
  refine ⟨?_, ?_, ?_⟩ <;> decide

/-- Amended C9: recoverable input errors re-prompt inside the item's loop,
and the choice blank-default path completes without an exception whenever the
Choice's current selection is present: with `selection = some sel` and a
displayable option list, a blank line assigns the top tri-state level 2 to
`sel` and the loop finishes normally with no error.  (When the selection is
absent, the blank-default path instead raises an uncaught AttributeError that
escapes the walk.) -/
theorem C9_amended_blank_default_selection (nd : NodeData) (c : ChoiceS)
    (opts : List SymbolS) (sel : SymbolS) (rest : List String)
    (hsel : c.selection = some sel)
    (hdisp : (displayOptions c 1 opts).2 = none) :
    choiceLoop nd c opts ("" :: rest) =
      { events := choiceIterEvents nd c opts,
        muts := [(sel.name, Val.tri 2)], rest := rest, done := true,
        err := none } := by
  show choiceStep nd c opts "" rest (choiceLoop nd c opts rest) = _
  simp only [choiceStep]
  rw [hdisp]
  simp only [if_true]
  rw [hsel]

/-- Witness for the amended C9 on the concrete choice `chW`, whose selection
is `optBW`: blank input assigns level 2 to B and finishes with no error. -/
theorem C9_amended_blank_default_selection_witness :
    choiceLoop ndChW chW optsW [""] =
      { events := choiceIterEvents ndChW chW optsW,
        muts := [(optBW.name, Val.tri 2)], rest := [], done := true,
        err := none } :=
  C9_amended_blank_default_selection ndChW chW optsW optBW [] rfl (by decide)

theorem displayOptions_none_iff (c : ChoiceS) (opts : List SymbolS) (i : Nat) :
    (displayOptions c i opts).2 = none ↔
      ∀ s ∈ opts, optionDisplayable s = true := by
  induction opts generalizing i with
  | nil => simp [displayOptions]
  | cons o os ih =>
      cases hn : o.nodes with
      | nil =>
          simp [displayOptions, hn, optionDisplayable]
      | cons n0 ntl =>
          cases hp : n0.prompt with
          | none => simp [displayOptions, hn, hp, optionDisplayable]
          | some p => simp [displayOptions, hn, hp, optionDisplayable, ih]

/-- C10: each iteration of the choice selection loop displays every option by
reading the prompt of the option's first defining node with no guard, so the
display completes without a Python exception exactly when every option has at
least one defining node whose first node carries a prompt; if any displayed
option violates that, the iteration ends with an uncaught exception
(IndexError or TypeError) recorded on the run. -/
theorem C10_option_display_unguarded (nd : NodeData) (c : ChoiceS)
    (opts : List SymbolS) :
    (∀ i, (displayOptions c i opts).2 = none ↔
      ∀ s ∈ opts, optionDisplayable s = true) ∧
    (∀ s rest, (¬∀ o ∈ opts, optionDisplayable o = true) →
      ¬(choiceLoop nd c opts (s :: rest)).err = none) := by
  constructor
  · exact displayOptions_none_iff c opts
  · intro s rest hbad
    have h2 : ¬(displayOptions c 1 opts).2 = none := fun h =>
      hbad ((displayOptions_none_iff c opts 1).mp h)
    cases hdp : (displayOptions c 1 opts).2 with
    | none => exact absurd hdp h2
    | some e =>
        show ¬(choiceStep nd c opts s rest (choiceLoop nd c opts rest)).err =
          none
        simp only [choiceStep]
        rw [hdp]
        simp

/-- Witness for C10 on the concrete choice `chC10`, whose only visible option
has no defining node: the display iff holds, and running the loop on it ends
with an exception recorded. -/
theorem C10_option_display_unguarded_witness :
    ((displayOptions chC10 1 [symNoNodes]).2 = none ↔
      ∀ s ∈ [symNoNodes], optionDisplayable s = true) ∧
    ¬(choiceLoop ndC10 chC10 [symNoNodes] ["1"]).err = none :=
  ⟨(C10_option_display_unguarded ndC10 chC10 [symNoNodes]).1 1,
   (C10_option_display_unguarded ndC10 chC10 [symNoNodes]).2 "1" []
     (by decide)⟩
